import Mathlib

/-!
Verification of the pyflexplot layout and labeling engine.

This file gives a shallow embedding (over `ℚ`, `String`, `List`, `Except`)
of the relevant parts of `src/pyflexplot/plot.py` and
`src/pyflexplot/plots.py`, and proves or refutes the frozen claims about
them.  Python floats are modelled as exact rationals; Python exceptions are
modelled by the `PyErr` error type and `Except` results.
-/

/-- Model of the Python exceptions raised by the embedded code. -/
inductive PyErr where
  | keyError (k : String)
  | valueError (msg : String)
  | nameError (missing : String)
  | notImplementedError (msg : String)
  | indexError
  deriving DecidableEq, Repr

/-- Decidable equality of `Except` results, for concrete evaluations. -/
instance {ε α : Type} [DecidableEq ε] [DecidableEq α] : DecidableEq (Except ε α) :=
  fun x y =>
    match x, y with
    | Except.ok a, Except.ok b =>
      if h : a = b then Decidable.isTrue (by rw [h])
      else Decidable.isFalse (by intro c; injection c; contradiction)
    | Except.error a, Except.error b =>
      if h : a = b then Decidable.isTrue (by rw [h])
      else Decidable.isFalse (by intro c; injection c; contradiction)
    | Except.ok _, Except.error _ => Decidable.isFalse (fun c => nomatch c)
    | Except.error _, Except.ok _ => Decidable.isFalse (fun c => nomatch c)

/-! ## BoxLocation (plot.py, lines 1066-1163)

`BoxLocation` resolves a location parameter on a 3x3 grid.  The Python
constructor first applies `str` to its argument, so the embedding takes a
`String`.  Integer membership tests such as `loc in (0, '0', ...)` can only
match their string members after `str` conversion. -/

/-- Embeds `BoxLocation._eval_loc_vert` (plot.py 1112-1120). -/
def eval_loc_vert (l : String) : Except PyErr String :=
  if l = "0" ∨ l = "b" ∨ l = "bottom" then Except.ok "b"
  else if l = "1" ∨ l = "c" ∨ l = "center" then Except.ok "c"
  else if l = "2" ∨ l = "t" ∨ l = "top" then Except.ok "t"
  else Except.error (PyErr.valueError ("invalid vertical location component " ++ l))

/-- Embeds `BoxLocation._eval_loc_horz` (plot.py 1122-1130). -/
def eval_loc_horz (l : String) : Except PyErr String :=
  if l = "0" ∨ l = "l" ∨ l = "left" then Except.ok "l"
  else if l = "1" ∨ l = "c" ∨ l = "center" then Except.ok "c"
  else if l = "2" ∨ l = "r" ∨ l = "right" then Except.ok "r"
  else Except.error (PyErr.valueError ("invalid horizontal location component " ++ l))

/-- Embeds `BoxLocation._prepare_loc` (plot.py 1093-1110).  A two-character
string is split into its characters; the literal `center` is duplicated;
any other input reaches `line.split(' ', 1)` where `line` is an undefined
name, so Python raises `NameError` -- modelled by `PyErr.nameError "line"`. -/
def prepare_loc (loc : String) : Except PyErr (String × String) := do
  let (ly, lx) ←
    match loc.toList with
    | [c1, c2] => Except.ok (String.mk [c1], String.mk [c2])
    | _ =>
      if loc = "center" then Except.ok (loc, loc)
      else Except.error (PyErr.nameError "line")
  let y ← eval_loc_vert ly
  let x ← eval_loc_horz lx
  Except.ok (y, x)

/-- Embeds `BoxLocation.get_va` (plot.py 1132-1139); defined on the three
values produced by `eval_loc_vert`. -/
def get_va (ly : String) : String :=
  if ly = "b" then "baseline"
  else if ly = "c" then "center_baseline"
  else "top"

/-- Embeds `BoxLocation.get_ha` (plot.py 1141-1147). -/
def get_ha (lx : String) : String :=
  if lx = "l" then "left"
  else if lx = "c" then "center"
  else "right"

/-- Embeds `BoxLocation.get_y0` (plot.py 1149-1155). -/
def get_y0 (ly : String) (dy : ℚ) : ℚ :=
  if ly = "b" then 0 + dy
  else if ly = "c" then 1/2
  else 1 - dy

/-- Embeds `BoxLocation.get_x0` (plot.py 1157-1163). -/
def get_x0 (lx : String) (dx : ℚ) : ℚ :=
  if lx = "l" then 0 + dx
  else if lx = "c" then 1/2
  else 1 - dx

/-! ## Figure layout (plot.py, `FlexPlotConcentration.fig_add_text_boxes`, lines 273-337) -/

/-- A rectangle `[left, bottom, width, height]` in figure coordinates. -/
structure Rect where
  x : ℚ
  y : ℚ
  w : ℚ
  h : ℚ
  deriving DecidableEq, Repr

/-- The rectangles produced by `fig_add_text_boxes`: repositioned map panel
plus the three text box panels. -/
structure LayoutRects where
  map : Rect
  top : Rect
  right_top : Rect
  right_bottom : Rect
  deriving DecidableEq, Repr

/-- Embeds `fig_add_text_boxes` (plot.py 273-337): the map panel is moved to
`(0.05, 0.05)` and three text boxes are placed around it (top, right-top,
right-bottom).  `w_map`/`h_map` are the realized map panel dimensions in
figure coordinates and `fig_aspect` the figure aspect ratio; both are read
from the frozen canvas in the source and are parameters here. -/
def fig_add_text_boxes (w_map h_map h_rel w_rel pad_hor_rel fig_aspect : ℚ) :
    LayoutRects :=
  let x0_map : ℚ := 5/100
  let y0_map : ℚ := 5/100
  let w_box := w_rel * w_map
  let h_box := h_rel * h_map
  let pad_hor := pad_hor_rel * w_map
  let pad_ver := pad_hor * fig_aspect
  let h_rel_box_top : ℚ := 4/10
  { map := ⟨x0_map, y0_map, w_map, h_map⟩,
    top := ⟨x0_map, y0_map + pad_ver + h_map, w_map + pad_hor + w_box, h_box⟩,
    right_top := ⟨x0_map + pad_hor + w_map,
      y0_map + (1/2) * pad_ver + (1 - h_rel_box_top) * h_map,
      w_box,
      h_rel_box_top * h_map - (1/2) * pad_ver⟩,
    right_bottom := ⟨x0_map + pad_hor + w_map,
      y0_map,
      w_box,
      (1 - h_rel_box_top) * h_map - (1/2) * pad_ver⟩ }

/-- Two rectangles overlap when their interiors intersect. -/
def overlaps (a b : Rect) : Prop :=
  a.x < b.x + b.w ∧ b.x < a.x + a.w ∧ a.y < b.y + b.h ∧ b.y < a.y + a.h

instance (a b : Rect) : Decidable (overlaps a b) := by
  unfold overlaps; infer_instance

/-! ## FlexAxesTextBox text placement (plot.py, lines 697-1036)

The box state relevant to text placement is the pair of unit distances
`(dx, dy)` computed by `compute_unit_distances`; it is threaded through as
an explicit pair `B`.  The `**kwargs` dictionary of the text methods is
modelled by the record `Kw`, holding exactly the keys the embedded code
inspects (the source's `ColorStr` override, a temporary hack, is omitted;
line colors are what `text_blocks` passes explicitly). -/

/-- The keyword arguments of `FlexAxesTextBox.text` that the embedded code
reads or writes.  A `none` field models an absent dictionary key. -/
structure Kw where
  dx : Option ℚ := none
  ha : Option String := none
  va : Option String := none
  horizontalalignment : Option String := none
  verticalalignment : Option String := none
  color : Option String := none
  c : Option String := none
  vs : Option String := none
  deriving DecidableEq, Repr

/-- One recorded `ax.text` draw call: position, string, resolved alignments
and the color keyword (if any) passed through. -/
structure TextCall where
  x : ℚ
  y : ℚ
  s : String
  ha : String
  va : String
  color : Option String
  deriving DecidableEq, Repr

/-- Embeds `FlexAxesTextBox.text` (plot.py 771-831).  `B = (dx_unit, dy_unit)`
are the box's unit distances.  The location is resolved via `BoxLocation`;
alignment keywords override the derived alignment.  When the resolved
vertical alignment is `top_baseline` the source executes
`raise NotImplementedError(f"verticalalignment='{kwargs['vs']}'")`: the
f-string reads the key `vs` (a typo for `va`), so unless the caller passed
a `vs` keyword the statement raises `KeyError` before the
`NotImplementedError` is even constructed. -/
def text (B : ℚ × ℚ) (loc : String) (s : String) (dx? dy? : Option ℚ)
    (kw : Kw) : Except PyErr TextCall := do
  let dx := dx?.getD 0
  let dy := dy?.getD 0
  let (ly, lx) ← prepare_loc loc
  let ha := kw.horizontalalignment.getD (kw.ha.getD (get_ha lx))
  let va := kw.verticalalignment.getD (kw.va.getD (get_va ly))
  if va = "top_baseline" then
    match kw.vs with
    | none => Except.error (PyErr.keyError "vs")
    | some v => Except.error (PyErr.notImplementedError ("verticalalignment=" ++ v))
  else
    let x0 := get_x0 lx B.1
    let y0 := get_y0 ly B.2
    Except.ok ⟨x0 + dx * B.1, y0 + dy * B.2, s, ha, va, kw.color⟩

/-- Resolves the line colors of one block (plot.py 920-930): a missing block
color list becomes one `none` per line, then each line color defaults to
`default`.  Accessing `colors_blocks[i][j]` for `j` beyond the given list
raises `IndexError` in Python. -/
def resolveBlockColors (default : String) (block : List String)
    (cb : Option (List (Option String))) : Except PyErr (List String) :=
  let inner := cb.getD (block.map fun _ => none)
  (List.range block.length).mapM fun j =>
    match inner[j]? with
    | none => Except.error PyErr.indexError
    | some o => Except.ok (o.getD default)

/-- The inner loop of `text_blocks` (plot.py 941-950) over one block:
emit one `text` call per `(line, color)` pair, advancing `dy` by `dy_line`
after each line.  Returns the calls and the final `dy`. -/
def emitLines (B : ℚ × ℚ) (loc : String) (kw : Kw) (dy_line : ℚ) :
    List (String × String) → ℚ → Except PyErr (List TextCall × ℚ)
  | [], dy => Except.ok ([], dy)
  | (s, c) :: rest, dy => do
    let call ← text B loc s kw.dx (some dy) { kw with color := some c }
    let (calls, dy') ← emitLines B loc kw dy_line rest (dy + dy_line)
    Except.ok (call :: calls, dy')

/-- The outer loop of `text_blocks` (plot.py 940-951): after each block,
`dy` additionally advances by `dy_block`. -/
def emitBlocks (B : ℚ × ℚ) (loc : String) (kw : Kw) (dy_line dy_block : ℚ) :
    List (List (String × String)) → ℚ → Except PyErr (List TextCall)
  | [], _ => Except.ok []
  | b :: rest, dy => do
    let (calls, dy') ← emitLines B loc kw dy_line b dy
    let more ← emitBlocks B loc kw dy_line dy_block rest (dy' + dy_block)
    Except.ok (calls ++ more)

/-- Embeds `FlexAxesTextBox.text_blocks` (plot.py 852-951).  Defaults:
`dy_line = 2.5`, `dy0 = dy_line`, `dy_block = dy_line`.  The default color
is popped from the `color`/`c` keywords (default `black`); `colors` (one
optional color list per block) is resolved against the unreversed blocks,
then `reverse` reverses both the blocks and the resolved colors. -/
def text_blocks (B : ℚ × ℚ) (loc : String) (blocks : List (List String))
    (dy0? dy_line? dy_block? : Option ℚ) (reverse : Bool)
    (colors? : Option (List (Option (List (Option String))))) (kw : Kw) :
    Except PyErr (List TextCall) := do
  let dy_line := dy_line?.getD (5/2)
  let dy0 := dy0?.getD dy_line
  let dy_block := dy_block?.getD dy_line
  let default_color := (kw.color).getD ((kw.c).getD "black")
  let kw := { kw with color := none, c := none }
  let colors_blocks ←
    match colors? with
    | none => Except.ok (blocks.map fun b => b.map fun _ => default_color)
    | some cbs =>
      if cbs.length ≠ blocks.length then
        Except.error (PyErr.valueError "colors must have same length as blocks")
      else
        (blocks.zip cbs).mapM fun p => resolveBlockColors default_color p.1 p.2
  let (blocks, colors_blocks) :=
    if reverse then
      (blocks.reverse.map List.reverse, colors_blocks.reverse.map List.reverse)
    else (blocks, colors_blocks)
  let paired := (blocks.zip colors_blocks).map fun p => p.1.zip p.2
  emitBlocks B loc kw dy_line dy_block paired dy0

/-- Embeds `FlexAxesTextBox.text_block` (plot.py 833-850): it delegates to
`text_blocks` with singleton block and color lists. -/
def text_block (B : ℚ × ℚ) (loc : String) (block : List String)
    (colors? : Option (List (Option String)))
    (dy0? dy_line? dy_block? : Option ℚ) (reverse : Bool) (kw : Kw) :
    Except PyErr (List TextCall) :=
  text_blocks B loc [block] dy0? dy_line? dy_block? reverse (some [colors?]) kw

/-- Splits a character list at its first tab, if any. -/
def splitTabAux : List Char → List Char → Option (List Char × List Char)
  | [], _ => none
  | c :: rest, acc =>
    if c = '\t' then some (acc.reverse, rest) else splitTabAux rest (c :: acc)

/-- Models `line.split('\t', 1)` followed by two-element unpacking
(plot.py 1022): splitting at the first tab; a line without a tab makes the
unpacking raise `ValueError`. -/
def splitTab1 (s : String) : Except PyErr (String × String) :=
  match splitTabAux s.toList [] with
  | none => Except.error (PyErr.valueError ("invalid line: " ++ s))
  | some (l, r) => Except.ok (String.mk l, String.mk r)

/-- Embeds `FlexAxesTextBox.text_blocks_hfill` (plot.py 960-1036) for blocks
already in list-of-lines form (the string front-ends of the source, which
split multiline strings at blank lines, produce exactly this form; see
`hfillParse`).  Each line is split at its first tab; the left parts are
placed with `text_blocks` anchored at `bl`, the right parts anchored at
`br` with the mirrored horizontal offset `dx_r = -dx_l`.  The `loc_y`
parameter is accepted but, as in the source, never used. -/
def text_blocks_hfill (B : ℚ × ℚ) (loc_y : String)
    (blocks : List (List String)) (dy0? dy_line? dy_block? : Option ℚ)
    (reverse : Bool) (colors? : Option (List (Option (List (Option String)))))
    (kw : Kw) : Except PyErr (List TextCall) := do
  let _ := loc_y
  let parsed ← blocks.mapM fun b => b.mapM splitTab1
  let blocks_l := parsed.map fun b => b.map Prod.fst
  let blocks_r := parsed.map fun b => b.map Prod.snd
  let dx_l := kw.dx
  let dx_r := dx_l.map Neg.neg
  let calls_l ← text_blocks B "bl" blocks_l dy0? dy_line? dy_block? reverse
    colors? { kw with dx := dx_l }
  let calls_r ← text_blocks B "br" blocks_r dy0? dy_line? dy_block? reverse
    colors? { kw with dx := dx_r }
  Except.ok (calls_l ++ calls_r)

/-- Models the string front-end of `text_blocks_hfill` (plot.py 992-1014):
a multiline string is stripped and split into blocks at blank lines, and
each block into lines. -/
def hfillParse (s : String) : List (List String) :=
  let sepBlocks : String := "\n\n"
  let sepLines : String := "\n"
  (s.trim.splitOn sepBlocks).map fun b => b.trim.splitOn sepLines

/-! ## Numeric string helpers

Python formats floats with correctly rounded decimal output; ties round to
even.  Over exact rationals this is `rhe` below.  (At the rationals used in
the claims no ties occur, so the tie-breaking mode is not load-bearing.) -/

/-- Round half to even, as Python rounds decimal digits.  Computed on the
numerator and denominator: `f` is the floor, and the fractional remainder
`(q - f)` compares to `1/2` as `2 * (num - f * den)` compares to `den`. -/
def rhe (q : ℚ) : ℤ :=
  let n := q.num
  let d : ℤ := q.den
  let f := n.fdiv d
  let r2 := 2 * (n - f * d)
  if r2 < d then f
  else if d < r2 then f + 1
  else if f % 2 = 0 then f else f + 1

/-- `x * 10 ^ p` on exact rationals, in kernel-computable form. -/
def mulPow10 (x : ℚ) (p : ℕ) : ℚ := Rat.divInt (x.num * (10 : ℤ) ^ p) x.den

/-- `x / 10 ^ p` on exact rationals, in kernel-computable form. -/
def divPow10 (x : ℚ) (p : ℕ) : ℚ := Rat.divInt x.num ((x.den : ℤ) * (10 : ℤ) ^ p)

/-- Left-pad a string with zeros to length `n`. -/
def padZeros (n : ℕ) (s : String) : String :=
  String.mk (List.replicate (n - s.length) '0') ++ s

/-- Left-pad a string with spaces to length `n` (Python `{:>n}`). -/
def padLeftSpaces (n : ℕ) (s : String) : String :=
  String.mk (List.replicate (n - s.length) ' ') ++ s

/-- Right-pad a string with spaces to length `n` (Python `{:<n}`). -/
def padRightSpaces (n : ℕ) (s : String) : String :=
  s ++ String.mk (List.replicate (n - s.length) ' ')

/-- Python fixed-point formatting `f"{x:.pf}"` of a nonnegative rational. -/
def fmtFixedPos (x : ℚ) (p : ℕ) : String :=
  let n := rhe (mulPow10 x p)
  let ip := n / (10 : ℤ) ^ p
  let fp := n % (10 : ℤ) ^ p
  if p = 0 then toString n
  else toString ip ++ "." ++ padZeros p (toString fp.toNat)

/-- Python fixed-point formatting `f"{x:.pf}"`; a rational is negative iff
its numerator is. -/
def fmtFixed (x : ℚ) (p : ℕ) : String :=
  if x.num < 0 then "-" ++ fmtFixedPos (-x) p else fmtFixedPos x p

/-- Decimal exponent of a positive rational: the unique `e` with
`10^e ≤ x < 10^(e+1)`, found by fueled scaling (fuel 700 covers the double
range the source operates on).  `x < 1` iff `num < den`, and `10 ≤ x` iff
`10 * den ≤ num`. -/
def pyExpAux : ℕ → ℚ → ℤ → ℤ
  | 0, _, e => e
  | fuel + 1, x, e =>
    if x.num < (x.den : ℤ) then pyExpAux fuel (mulPow10 x 1) (e - 1)
    else if 10 * (x.den : ℤ) ≤ x.num then pyExpAux fuel (divPow10 x 1) (e + 1)
    else e

/-- Decimal exponent entry point. -/
def pyExp (x : ℚ) : ℤ := pyExpAux 700 x 0

/-- Exponent suffix of Python `E` formatting: sign and at least two digits. -/
def expSuffix (e : ℤ) : String :=
  let s := toString e.natAbs
  let s := if s.length < 2 then padZeros 2 s else s
  (if e < 0 then "-" else "+") ++ s

/-- Python scientific formatting `f"{x:.pE}"` of a positive rational: the
mantissa `m = x / 10^e` lies in `[1, 10)`; its `p + 1` significant digits
are rounded, with a carry into the exponent when rounding reaches `10`. -/
def fmtSciPos (x : ℚ) (p : ℕ) : String :=
  let e := pyExp x
  let m := if 0 ≤ e then divPow10 x e.toNat else mulPow10 x (-e).toNat
  let d := rhe (mulPow10 m p)
  let (d, e) := if (10 : ℤ) ^ (p + 1) ≤ d then ((10 : ℤ) ^ p, e + 1) else (d, e)
  let ds := toString d.toNat
  let mant := if p = 0 then ds else ds.take 1 ++ "." ++ ds.drop 1
  mant ++ "E" ++ expSuffix e

/-- Python scientific formatting `f"{x:.pE}"` (zero and negatives included
for totality; the source only reaches this with positive field maxima). -/
def fmtSci (x : ℚ) (p : ℕ) : String :=
  if x.num = 0 then
    (if p = 0 then "0" else "0." ++ padZeros p "") ++ "E+00"
  else if x.num < 0 then "-" ++ fmtSciPos (-x) p
  else fmtSciPos x p

/-! ## Level-range legend labels (plot.py, `FlexPlotConcentration`, lines 234-432) -/

/-- Partial model of Python `f"{lvl:g}"` sufficient for the level ladders
the source feeds it: integral values below a million print as integers;
other values fall back to `toString` of the rational.  (Claim C3 depends
only on the number of labels, never on their text.) -/
def fmtG (x : ℚ) : String :=
  if x.den = 1 ∧ x.num.natAbs < 1000000 then toString x.num else toString x

/-- Embeds `format_level` inside `_format_level_ranges` (plot.py 408-409):
empty string for `None`, else `f"{lvl:g}".strip()`. -/
def format_level (l : Option ℚ) : String :=
  match l with
  | none => ""
  | some v => (fmtG v).trim

/-- Embeds `format_label` (plot.py 406-411): both sides padded to width 6,
the left side right-aligned and the right side left-aligned. -/
def format_label (lvl0 lvl1 : Option ℚ) : String :=
  padLeftSpaces 6 (format_level lvl0) ++ " > " ++ padRightSpaces 6 (format_level lvl1)

/-- Embeds `FlexPlotConcentration._format_level_ranges` (plot.py 403-432):
an under label for extend `min`/`both` (reading `levels[0]`), one label per
interior level pair, and an over label for `max`/`both` (reading
`levels[-1]`).  Reading from an empty ladder raises `IndexError`. -/
def format_level_ranges_conc (levels : List ℚ) (extend : String) :
    Except PyErr (List String) := do
  let under ←
    if extend = "min" ∨ extend = "both" then
      match levels.head? with
      | none => Except.error PyErr.indexError
      | some l0 => Except.ok [format_label none (some l0)]
    else Except.ok []
  let over ←
    if extend = "max" ∨ extend = "both" then
      match levels.getLast? with
      | none => Except.error PyErr.indexError
      | some ln => Except.ok [format_label none (some ln)]
    else Except.ok []
  let interior := (levels.zip levels.tail).map fun p => format_label (some p.1) (some p.2)
  Except.ok (under ++ interior ++ over)

/-- Embeds the color selection of `map_add_particle_concentrations`
(plot.py 248-268): the colormap is sampled at `len(levels) + 1` points and
the stored color sequence is the slice matching the extend mode, looked up
in a dict (`KeyError` for other keys).  The sampled colors themselves are
opaque RGBA tuples; they are abstracted to their sample indices
`0 .. len(levels)`, which preserves the slicing exactly. -/
def selectColors (levels : List ℚ) (extend : String) : Except PyErr (List ℕ) :=
  let colors := List.range (levels.length + 1)
  if extend = "none" then Except.ok ((colors.drop 1).dropLast)
  else if extend = "min" then Except.ok colors.dropLast
  else if extend = "max" then Except.ok (colors.drop 1)
  else if extend = "both" then Except.ok colors
  else Except.error (PyErr.keyError extend)

/-! ## Field-maximum formatting (plots.py, `fill_box_right_middle`, lines 495-514) -/

/-- Embeds the magnitude-dependent precision table applied to the field
maximum (plots.py 499-512): `.5f` on `[0.001, 0.01)`, `.4f` on
`[0.01, 0.1)`, `.3f` on `[0.1, 1)`, `.2f` on `[1, 10)`, `.1f` on
`[10, 100)`, `.0f` on `[100, 1000)`, and `.2E` otherwise. -/
def format_fld_max (fld_max : ℚ) : String :=
  if Rat.divInt 1 1000 ≤ fld_max ∧ fld_max < Rat.divInt 1 100 then fmtFixed fld_max 5
  else if Rat.divInt 1 100 ≤ fld_max ∧ fld_max < Rat.divInt 1 10 then fmtFixed fld_max 4
  else if Rat.divInt 1 10 ≤ fld_max ∧ fld_max < 1 then fmtFixed fld_max 3
  else if 1 ≤ fld_max ∧ fld_max < 10 then fmtFixed fld_max 2
  else if 10 ≤ fld_max ∧ fld_max < 100 then fmtFixed fld_max 1
  else if 100 ≤ fld_max ∧ fld_max < 1000 then fmtFixed fld_max 0
  else fmtSci fld_max 2

/-! ## Ensemble right-top info lines (plots.py, `create_plot_config`, lines 252-324) -/

/-- Python `f"{q:.0%}"`: the ratio times 100, rounded to an integer, with a
percent sign. -/
def fmtPct0 (q : ℚ) : String := toString (rhe (Rat.divInt (q.num * 100) q.den)) ++ "%"

/-- Python `str` of an optional int (`None` prints as `None`). -/
def pyOptNatStr (o : Option ℕ) : String :=
  match o with
  | none => "None"
  | some n => toString n

/-- The localized word fragments consumed by the ensemble right-top lines;
the `words`/`symbols` lookup services are external collaborators, so their
results are opaque string parameters. -/
structure EnsWords where
  cloud : String
  geq : String
  cloud_density_c : String
  minimum_abbr : String
  number_of_abbr_c : String
  member_pl : String
  deriving Repr

/-- Embeds the member-count line (plots.py 295-300 and 316-321):
`{number-of} {members}:<tab>{min-abbr} {mem_min}$\,/\,${n_tot} ({pct:.0%})`
where `n_min = mem_min or 1`, `n_tot = len(ens_member_id or [])` and the
percentage is `n_min / (n_tot or 1)`. -/
def memberLine (W : EnsWords) (mem_min : Option ℕ) (member_ids : List ℕ) : String :=
  let n_min : ℕ := mem_min.getD 1
  let n_tot : ℕ := member_ids.length
  let pct : ℚ := Rat.divInt n_min (if n_tot = 0 then 1 else n_tot)
  W.number_of_abbr_c ++ " " ++ W.member_pl ++ ":\t" ++ W.minimum_abbr ++ " " ++
    pyOptNatStr mem_min ++ "$\\,/\\,$" ++ toString n_tot ++ " (" ++ fmtPct0 pct ++ ")"

/-- Embeds the cloud-threshold line of the `probability` branch
(plots.py 277-280). -/
def cloudThrLine (W : EnsWords) (thr unit : String) : String :=
  W.cloud ++ ":\t" ++ W.geq ++ " " ++ thr ++ " " ++ unit

/-- Embeds the cloud-density line of the cloud-time/occurrence branches
(plots.py 289-292 and 310-313). -/
def cloudDensityLine (W : EnsWords) (thr unit : String) : String :=
  W.cloud_density_c ++ ":\t" ++ W.minimum_abbr ++ " " ++ thr ++ " " ++ unit

/-- Embeds the extra right-top informational lines appended by the ensemble
branch of `create_plot_config` (plots.py 275-324), per ensemble variable.
`thr` is the formatted `ens_param_thr` and `unit` the formatted variable
unit. -/
def ens_right_top_extra_lines (W : EnsWords) (ens_variable : String)
    (thr unit : String) (mem_min : Option ℕ) (member_ids : List ℕ) : List String :=
  if ens_variable = "probability" then [cloudThrLine W thr unit]
  else if ens_variable = "cloud_arrival_time" ∨ ens_variable = "cloud_departure_time" then
    [cloudDensityLine W thr unit, memberLine W mem_min member_ids]
  else if ens_variable = "cloud_occurrence_probability" then
    [cloudDensityLine W thr unit, memberLine W mem_min member_ids]
  else []

/-! ## Color palette lookup (plots.py, `colors_flexplot`, lines 700-753) -/

/-- The fixed 8-color core palette (plots.py 718-727). -/
def colors_core_8 : List String :=
  ["bisque", "violet", "rebeccapurple", "cornflowerblue",
   "forestgreen", "yellowgreen", "greenyellow", "yellow"]

/-- Subpalette selection by index list (plots.py 729-732). -/
def subPalette (idxs : List ℕ) : List String :=
  idxs.filterMap fun i => colors_core_8[i]?

/-- The 7-color core palette. -/
def colors_core_7 : List String := subPalette [0, 1, 2, 3, 5, 6, 7]

/-- The 6-color core palette. -/
def colors_core_6 : List String := subPalette [1, 2, 3, 4, 5, 7]

/-- The 5-color core palette. -/
def colors_core_5 : List String := subPalette [1, 2, 4, 5, 7]

/-- The 4-color core palette. -/
def colors_core_4 : List String := subPalette [1, 2, 4, 7]

/-- The level-count-to-core-palette table (plots.py 734-743); a level count
outside `{5..9}` raises `ValueError`. -/
def colors_core_for (n_levels : ℕ) : Except PyErr (List String) :=
  if n_levels = 5 then Except.ok colors_core_4
  else if n_levels = 6 then Except.ok colors_core_5
  else if n_levels = 7 then Except.ok colors_core_6
  else if n_levels = 8 then Except.ok colors_core_7
  else if n_levels = 9 then Except.ok colors_core_8
  else Except.error (PyErr.valueError ("n_levels=" ++ toString n_levels))

/-- Embeds `colors_flexplot` (plots.py 700-753): the core palette for the
level count, with `darkgray` prepended for extend `min`/`both` and
`lightgray` appended for `max`/`both`; unknown extend values raise
`ValueError`. -/
def colors_flexplot (n_levels : ℕ) (extend : String) : Except PyErr (List String) := do
  let color_under : String := "darkgray"
  let color_over : String := "lightgray"
  let colors_core ← colors_core_for n_levels
  if extend = "none" then Except.ok colors_core
  else if extend = "min" then Except.ok (color_under :: colors_core)
  else if extend = "max" then Except.ok (colors_core ++ [color_over])
  else if extend = "both" then Except.ok (color_under :: (colors_core ++ [color_over]))
  else Except.error (PyErr.valueError ("extend=" ++ extend))

/-! ## Field-maximum marker (plots.py, `plot_add_markers`, lines 677-697)

The field data type and its `locate_max` live in `pyflexplot/data.py`,
which is not part of the sources; they are modelled from the spec. -/

/-- A field is a 2-D array of values; invalid/masked values (NaN) are
`none`. -/
abbrev FieldArr : Type := List (List (Option ℚ))

/-- The valid cells of one row, with their column index, scanning left to
right. -/
def rowCells : ℕ → ℕ → List (Option ℚ) → List ((ℕ × ℕ) × ℚ)
  | _, _, [] => []
  | i, j, none :: rest => rowCells i (j + 1) rest
  | i, j, some v :: rest => ((i, j), v) :: rowCells i (j + 1) rest

/-- All valid cells of a field, row-major. -/
def allCells : ℕ → FieldArr → List ((ℕ × ℕ) × ℚ)
  | _, [] => []
  | i, row :: rest => rowCells i 0 row ++ allCells (i + 1) rest

/-- Modelled from the spec: `Field.locate_max` (in the missing
`pyflexplot/data.py`) returns the position of the field maximum and raises
`FieldAllNaNError` when every value of the field is invalid (NaN); an
all-invalid field is a valid, expected outcome.  The error is the `Unit`
error value. -/
def locate_max (fld : FieldArr) : Except Unit (ℕ × ℕ) :=
  match allCells 0 fld with
  | [] => Except.error ()
  | c :: cs =>
    Except.ok (cs.foldl (fun best cur => if best.2 < cur.2 then cur else best) c).1

/-- A marker draw call of `plot_add_markers`: the release-site marker (at
geographic coordinates) or the field-maximum marker (at the maximum's
position). -/
inductive MarkerCall where
  | siteMarker (lat lon : ℚ)
  | maxMarker (i j : ℕ)
  deriving DecidableEq, Repr

/-- Embeds `plot_add_markers` (plots.py 677-697): the release-site marker
when `mark_release_site`, then the field-maximum marker when
`mark_field_max` -- unless `locate_max` reports an all-NaN field, in which
case the marker is skipped and the warning
`skip maximum marker (all-nan field)` is emitted.  Returns the marker draw
calls and the emitted warnings. -/
def plot_add_markers (mark_release_site mark_field_max : Bool)
    (site_lat site_lon : ℚ) (fld : FieldArr) : List MarkerCall × List String :=
  let site_part : List MarkerCall :=
    if mark_release_site then [MarkerCall.siteMarker site_lat site_lon] else []
  let (max_part, warns) :=
    if mark_field_max then
      match locate_max fld with
      | Except.error _ => ([], ["skip maximum marker (all-nan field)"])
      | Except.ok (i, j) => ([MarkerCall.maxMarker i j], [])
    else ([], [])
  (site_part ++ max_part, warns)

/-! # Theorems -/

/-- Claim C1 (code bug evaluation): for each of the nine anchors the
2-digit code and the 2-letter short code resolve to the same vertical and
horizontal components -- hence identical alignments and baseline offsets,
which are functions of that pair -- and `center` agrees with `cc`; but the
long string form, documented as valid in the source's own docstring,
instead fails with `NameError` because `_prepare_loc` references the
undefined name `line`; a malformed 2-character code fails with the
invalid-component `ValueError`. -/
theorem boxLocation_long_form_name_error :
    (prepare_loc "00" = Except.ok ("b", "l") ∧ prepare_loc "bl" = Except.ok ("b", "l")) ∧
    (prepare_loc "01" = Except.ok ("b", "c") ∧ prepare_loc "bc" = Except.ok ("b", "c")) ∧
    (prepare_loc "02" = Except.ok ("b", "r") ∧ prepare_loc "br" = Except.ok ("b", "r")) ∧
    (prepare_loc "10" = Except.ok ("c", "l") ∧ prepare_loc "cl" = Except.ok ("c", "l")) ∧
    (prepare_loc "11" = Except.ok ("c", "c") ∧ prepare_loc "cc" = Except.ok ("c", "c") ∧
      prepare_loc "center" = Except.ok ("c", "c")) ∧
    (prepare_loc "12" = Except.ok ("c", "r") ∧ prepare_loc "cr" = Except.ok ("c", "r")) ∧
    (prepare_loc "20" = Except.ok ("t", "l") ∧ prepare_loc "tl" = Except.ok ("t", "l")) ∧
    (prepare_loc "21" = Except.ok ("t", "c") ∧ prepare_loc "tc" = Except.ok ("t", "c")) ∧
    (prepare_loc "22" = Except.ok ("t", "r") ∧ prepare_loc "tr" = Except.ok ("t", "r")) ∧
    prepare_loc "bottom left" = Except.error (PyErr.nameError "line") ∧
    prepare_loc "top right" = Except.error (PyErr.nameError "line") ∧
    prepare_loc "zz" =
      Except.error (PyErr.valueError ("invalid vertical location component " ++ "z")) :=
  ⟨⟨by decide, by decide⟩, ⟨by decide, by decide⟩, ⟨by decide, by decide⟩,
   ⟨by decide, by decide⟩, ⟨by decide, by decide, by decide⟩, ⟨by decide, by decide⟩,
   ⟨by decide, by decide⟩, ⟨by decide, by decide⟩, ⟨by decide, by decide⟩,
   by decide, by decide, by decide⟩

/-- Claim C4 (counterexample): the field maximum 0.0456 is not formatted
as the claimed `0.04560`; it falls in the `[0.01, 0.1)` branch, which
uses 4 decimals. -/
theorem format_fld_max_counterexample :
    ¬ format_fld_max (Rat.divInt 456 10000) = "0.04560" := by
  decide

/-- Claim C4 (amended): the precision table formats 0.0456 with 4
decimals as `0.0456` (5 decimals apply only on `[0.001, 0.01)`), 4.56 as
`4.56`, 456 as `456`, and 45600 in scientific notation as `4.56E+04`. -/
theorem format_fld_max_table :
    format_fld_max (Rat.divInt 456 10000) = "0.0456" ∧
    format_fld_max (Rat.divInt 456 100) = "4.56" ∧
    format_fld_max 456 = "456" ∧
    format_fld_max 45600 = "4.56E+04" := by
  decide

/-- Claim C7 (code bug evaluation): requesting a `top_baseline` vertical
alignment makes `FlexAxesTextBox.text` fail before any text is drawn, but
with `KeyError` for the key `vs` -- raised while the f-string of the
intended `NotImplementedError` message reads the misspelled key
`kwargs['vs']` -- rather than with the unsupported-alignment error. -/
theorem text_top_baseline_key_error :
    text (1, 1) "bl" "sample" none none { va := some "top_baseline" } =
      Except.error (PyErr.keyError "vs") := by
  decide

/-- Claim C10: `text_block(loc, block, colors=colors, ...)` produces exactly
the same draw-call sequence as `text_blocks(loc, [block], colors=[colors],
...)` on the singleton lists -- the source implements the former as
precisely that call. -/
theorem text_block_refines_text_blocks (B : ℚ × ℚ) (loc : String)
    (block : List String) (colors? : Option (List (Option String)))
    (dy0? dy_line? dy_block? : Option ℚ) (reverse : Bool) (kw : Kw) :
    text_block B loc block colors? dy0? dy_line? dy_block? reverse kw =
      text_blocks B loc [block] dy0? dy_line? dy_block? reverse (some [colors?]) kw :=
  rfl

/-- Claim C8: for every level count in `{5..9}` and extend mode,
`colors_flexplot` returns the core palette of that level count with
`darkgray` prepended exactly for `min`/`both` and `lightgray` appended
exactly for `max`/`both` (so its length is the core length plus the number
of grays); every level count outside `{5..9}` fails with the
unsupported-level-count `ValueError`. -/
theorem colors_flexplot_spec (n : ℕ) (e : String) :
    (5 ≤ n ∧ n ≤ 9 →
      (e = "none" ∨ e = "min" ∨ e = "max" ∨ e = "both") →
      ∃ cc, colors_core_for n = Except.ok cc ∧
        colors_flexplot n e =
          Except.ok ((if e = "min" ∨ e = "both" then ["darkgray"] else []) ++ cc ++
            (if e = "max" ∨ e = "both" then ["lightgray"] else [])) ∧
        Except.map List.length (colors_flexplot n e) =
          Except.ok (cc.length + (if e = "min" ∨ e = "both" then 1 else 0) +
            (if e = "max" ∨ e = "both" then 1 else 0))) ∧
    (¬(5 ≤ n ∧ n ≤ 9) →
      colors_flexplot n e = Except.error (PyErr.valueError ("n_levels=" ++ toString n))) := by
  constructor
  · rintro ⟨h5, h9⟩ he
    interval_cases n <;>
      rcases he with rfl | rfl | rfl | rfl <;>
      exact ⟨_, rfl, by decide, by decide⟩
  · intro hn
    have e5 : n ≠ 5 := by omega
    have e6 : n ≠ 6 := by omega
    have e7 : n ≠ 7 := by omega
    have e8 : n ≠ 8 := by omega
    have e9 : n ≠ 9 := by omega
    simp [colors_flexplot, colors_core_for, e5, e6, e7, e8, e9, Bind.bind, Except.bind]

/-- Claim C8 witness: the instance `n_levels = 6`, `extend = "both"` of the
palette characterization. -/
theorem colors_flexplot_spec_witness :
    ∃ cc, colors_core_for 6 = Except.ok cc ∧
      colors_flexplot 6 "both" =
        Except.ok ((if ("both" : String) = "min" ∨ ("both" : String) = "both"
            then ["darkgray"] else []) ++ cc ++
          (if ("both" : String) = "max" ∨ ("both" : String) = "both"
            then ["lightgray"] else [])) ∧
      Except.map List.length (colors_flexplot 6 "both") =
        Except.ok (cc.length + (if ("both" : String) = "min" ∨ ("both" : String) = "both"
            then 1 else 0) +
          (if ("both" : String) = "max" ∨ ("both" : String) = "both" then 1 else 0)) :=
  (colors_flexplot_spec 6 "both").1 (by decide) (by decide)

/-- Helper: the literal tail of the member-count line for `mem_min = 10`
and 21 members. -/
theorem memberLine_10_21 (W : EnsWords) (ids : List ℕ) (h : ids.length = 21) :
    memberLine W (some 10) ids =
      W.number_of_abbr_c ++ " " ++ W.member_pl ++ ":\t" ++ W.minimum_abbr ++
        " " ++ "10" ++ "$\\,/\\,$" ++ "21" ++ " (" ++ "48%" ++ ")" := by
  simp only [memberLine, h]
  norm_num
  have h1 : pyOptNatStr (some 10) = "10" := by decide
  have h2 : toString (21 : ℕ) = "21" := by decide
  have h3 : fmtPct0 (Rat.divInt 10 21) = "48%" := by decide
  rw [h1, h2, h3]

/-- Claim C5: for an ensemble cloud-occurrence-probability configuration
with 21 ensemble members and minimum-members threshold 10, the extra
right-top lines are the cloud-density line and the member-count line, and
the member-count line's numeric part reads `10/21 (48%)` (the slash is the
LaTeX thin-spaced `$\,/\,$`, which renders as a slash): the threshold 10,
the member total 21, and the rounded percentage `48%` of `10/21`. -/
theorem ens_member_line_10_21 (W : EnsWords) (thr unit : String)
    (ids : List ℕ) (h : ids.length = 21) :
    ens_right_top_extra_lines W "cloud_occurrence_probability" thr unit (some 10) ids =
      [cloudDensityLine W thr unit,
       W.number_of_abbr_c ++ " " ++ W.member_pl ++ ":\t" ++ W.minimum_abbr ++
         " 10$\\,/\\,$21 (48%)"] := by
  have hline := memberLine_10_21 W ids h
  simp only [ens_right_top_extra_lines]
  norm_num
  rw [hline]
  simp only [String.append_assoc]
  congr 1

/-- Claim C5 witness: the member line at a concrete word table and the
member list `0..20`. -/
theorem ens_member_line_10_21_witness :
    ens_right_top_extra_lines ⟨"cloud", "geq", "clouddensity", "min", "NoM", "members"⟩
        "cloud_occurrence_probability" "thr" "unit" (some 10) (List.range 21) =
      [cloudDensityLine ⟨"cloud", "geq", "clouddensity", "min", "NoM", "members"⟩
          "thr" "unit",
       "NoM" ++ " " ++ "members" ++ ":\t" ++ "min" ++ " 10$\\,/\\,$21 (48%)"] :=
  ens_member_line_10_21 ⟨"cloud", "geq", "clouddensity", "min", "NoM", "members"⟩
    "thr" "unit" (List.range 21) (by decide)

/-- Claim C3 (counterexample): the spec's example `levels=[1,10,100]`,
`extend="max"` does not yield 4 labels and 4 colors. -/
theorem level_ranges_example_not_four :
    ¬ (Except.map List.length (format_level_ranges_conc [1, 10, 100] "max") =
        Except.ok 4 ∧
       Except.map List.length (selectColors [1, 10, 100] "max") = Except.ok 4) := by
  decide

/-- Claim C3 (amended): for every nonempty level ladder and extend mode,
the legend range labels and the selected color sequence have the same
length; the spec's example `levels=[1,10,100]`, `extend="max"` yields 3
labels and 3 colors (2 interior bins plus 1 over bin), not 4. -/
theorem level_ranges_length_eq_colors_length :
    (∀ (levels : List ℚ) (e : String), levels ≠ [] →
      (e = "none" ∨ e = "min" ∨ e = "max" ∨ e = "both") →
      ∃ labels colors, format_level_ranges_conc levels e = Except.ok labels ∧
        selectColors levels e = Except.ok colors ∧
        labels.length = colors.length) ∧
    Except.map List.length (format_level_ranges_conc [1, 10, 100] "max") =
      Except.ok 3 ∧
    Except.map List.length (selectColors [1, 10, 100] "max") = Except.ok 3 := by
  refine ⟨?_, by decide, by decide⟩
  intro levels e hne he
  obtain ⟨h, t, rfl⟩ : ∃ h t, levels = h :: t := by
    cases levels with
    | nil => exact absurd rfl hne
    | cons h t => exact ⟨h, t, rfl⟩
  have hlast : ∃ x, (h :: t).getLast? = some x := by
    rw [← Option.isSome_iff_exists, List.getLast?_isSome]
    exact hne
  obtain ⟨x, hx⟩ := hlast
  rcases he with rfl | rfl | rfl | rfl <;>
    simp [format_level_ranges_conc, selectColors, Bind.bind, Except.bind, hx,
      List.length_zip] <;>
    omega

/-- Claim C3 witness: the length equality at `levels = [1]`,
`extend = "min"`. -/
theorem level_ranges_length_witness :
    ∃ labels colors, format_level_ranges_conc [1] "min" = Except.ok labels ∧
      selectColors [1] "min" = Except.ok colors ∧
      labels.length = colors.length :=
  level_ranges_length_eq_colors_length.1 [1] "min" (List.cons_ne_nil 1 [])
    (Or.inr (Or.inl rfl))

/-- Claim C2 (counterexample): at the source's default parameters
(`h_rel=0.1`, `w_rel=0.25`, `pad_hor_rel=0.015`, aspect `4/3`, unit map
panel), the right-top height plus the right-bottom height plus HALF a
vertical padding does not equal the map height -- the source leaves a full
vertical padding between the two right boxes. -/
theorem layout_half_padding_counterexample :
    ¬ ((fig_add_text_boxes 1 1 (1/10) (1/4) (3/200) (4/3)).right_top.h +
        (fig_add_text_boxes 1 1 (1/10) (1/4) (3/200) (4/3)).right_bottom.h +
        ((3/200) * 1 * (4/3)) / 2 = 1) := by
  norm_num [fig_add_text_boxes]

/-- Claim C2 (amended): for positive map dimensions, size fractions in
`(0,1)`, positive padding fraction and aspect ratio: both right boxes
start at map x-start + map width + horizontal padding; right-top height
plus right-bottom height plus one FULL vertical padding equals the map
height; the two right boxes are the 40%/60% vertical split of the map
height, each reduced by half a vertical padding; and no two of the four
rectangles overlap. -/
theorem layout_rect_properties (w h hr wr p a : ℚ)
    (hw : 0 < w) (hh : 0 < h) (hwr : 0 < wr) (hwr1 : wr < 1)
    (hhr : 0 < hr) (hhr1 : hr < 1) (hp : 0 < p) (hp1 : p < 1) (hasp : 0 < a) :
    ((fig_add_text_boxes w h hr wr p a).right_top.x =
        (fig_add_text_boxes w h hr wr p a).map.x +
        (fig_add_text_boxes w h hr wr p a).map.w + p * w ∧
      (fig_add_text_boxes w h hr wr p a).right_bottom.x =
        (fig_add_text_boxes w h hr wr p a).map.x +
        (fig_add_text_boxes w h hr wr p a).map.w + p * w) ∧
    ((fig_add_text_boxes w h hr wr p a).right_top.h +
        (fig_add_text_boxes w h hr wr p a).right_bottom.h + p * w * a = h) ∧
    ((fig_add_text_boxes w h hr wr p a).right_top.h =
        (4/10) * h - (p * w * a) / 2 ∧
      (fig_add_text_boxes w h hr wr p a).right_bottom.h =
        (6/10) * h - (p * w * a) / 2) ∧
    (¬ overlaps (fig_add_text_boxes w h hr wr p a).map
        (fig_add_text_boxes w h hr wr p a).top ∧
      ¬ overlaps (fig_add_text_boxes w h hr wr p a).map
        (fig_add_text_boxes w h hr wr p a).right_top ∧
      ¬ overlaps (fig_add_text_boxes w h hr wr p a).map
        (fig_add_text_boxes w h hr wr p a).right_bottom ∧
      ¬ overlaps (fig_add_text_boxes w h hr wr p a).top
        (fig_add_text_boxes w h hr wr p a).right_top ∧
      ¬ overlaps (fig_add_text_boxes w h hr wr p a).top
        (fig_add_text_boxes w h hr wr p a).right_bottom ∧
      ¬ overlaps (fig_add_text_boxes w h hr wr p a).right_top
        (fig_add_text_boxes w h hr wr p a).right_bottom) := by
  have hpw : 0 < p * w := mul_pos hp hw
  have hpwa : 0 < p * w * a := mul_pos hpw hasp
  refine ⟨⟨?_, ?_⟩, ?_, ⟨?_, ?_⟩, ?_, ?_, ?_, ?_, ?_, ?_⟩ <;>
    simp only [fig_add_text_boxes, overlaps]
  · ring
  · ring
  · ring
  · ring
  · ring
  · rintro ⟨h1, h2, h3, h4⟩; linarith
  · rintro ⟨h1, h2, h3, h4⟩; linarith
  · rintro ⟨h1, h2, h3, h4⟩; linarith
  · rintro ⟨h1, h2, h3, h4⟩; linarith
  · rintro ⟨h1, h2, h3, h4⟩; linarith
  · rintro ⟨h1, h2, h3, h4⟩; linarith

/-- Claim C2 witness: the amended layout properties at the source's default
parameters (unit map panel, `h_rel=0.1`, `w_rel=0.25`, `pad_hor_rel=0.015`,
aspect `4/3`). -/
theorem layout_rect_properties_witness :
    ((fig_add_text_boxes 1 1 (1/10) (1/4) (3/200) (4/3)).right_top.x =
        (fig_add_text_boxes 1 1 (1/10) (1/4) (3/200) (4/3)).map.x +
        (fig_add_text_boxes 1 1 (1/10) (1/4) (3/200) (4/3)).map.w + (3/200) * 1 ∧
      (fig_add_text_boxes 1 1 (1/10) (1/4) (3/200) (4/3)).right_bottom.x =
        (fig_add_text_boxes 1 1 (1/10) (1/4) (3/200) (4/3)).map.x +
        (fig_add_text_boxes 1 1 (1/10) (1/4) (3/200) (4/3)).map.w + (3/200) * 1) ∧
    ((fig_add_text_boxes 1 1 (1/10) (1/4) (3/200) (4/3)).right_top.h +
        (fig_add_text_boxes 1 1 (1/10) (1/4) (3/200) (4/3)).right_bottom.h +
        (3/200) * 1 * (4/3) = 1) ∧
    ((fig_add_text_boxes 1 1 (1/10) (1/4) (3/200) (4/3)).right_top.h =
        (4/10) * 1 - ((3/200) * 1 * (4/3)) / 2 ∧
      (fig_add_text_boxes 1 1 (1/10) (1/4) (3/200) (4/3)).right_bottom.h =
        (6/10) * 1 - ((3/200) * 1 * (4/3)) / 2) ∧
    (¬ overlaps (fig_add_text_boxes 1 1 (1/10) (1/4) (3/200) (4/3)).map
        (fig_add_text_boxes 1 1 (1/10) (1/4) (3/200) (4/3)).top ∧
      ¬ overlaps (fig_add_text_boxes 1 1 (1/10) (1/4) (3/200) (4/3)).map
        (fig_add_text_boxes 1 1 (1/10) (1/4) (3/200) (4/3)).right_top ∧
      ¬ overlaps (fig_add_text_boxes 1 1 (1/10) (1/4) (3/200) (4/3)).map
        (fig_add_text_boxes 1 1 (1/10) (1/4) (3/200) (4/3)).right_bottom ∧
      ¬ overlaps (fig_add_text_boxes 1 1 (1/10) (1/4) (3/200) (4/3)).top
        (fig_add_text_boxes 1 1 (1/10) (1/4) (3/200) (4/3)).right_top ∧
      ¬ overlaps (fig_add_text_boxes 1 1 (1/10) (1/4) (3/200) (4/3)).top
        (fig_add_text_boxes 1 1 (1/10) (1/4) (3/200) (4/3)).right_bottom ∧
      ¬ overlaps (fig_add_text_boxes 1 1 (1/10) (1/4) (3/200) (4/3)).right_top
        (fig_add_text_boxes 1 1 (1/10) (1/4) (3/200) (4/3)).right_bottom) :=
  layout_rect_properties 1 1 (1/10) (1/4) (3/200) (4/3)
    (by norm_num) (by norm_num) (by norm_num) (by norm_num) (by norm_num)
    (by norm_num) (by norm_num) (by norm_num) (by norm_num)

/-- Helper: a row containing only invalid values contributes no cells. -/
theorem rowCells_all_none (i : ℕ) (row : List (Option ℚ))
    (h : ∀ v ∈ row, v = none) : ∀ j, rowCells i j row = [] := by
  induction row with
  | nil => intro j; rfl
  | cons a rest ih =>
    intro j
    have ha : a = none := h a (List.mem_cons_self a rest)
    subst ha
    have hrest : ∀ v ∈ rest, v = none := fun v hv => h v (List.mem_cons_of_mem _ hv)
    simpa [rowCells] using ih hrest (j + 1)

/-- Helper: an all-invalid field has no valid cells. -/
theorem allCells_all_none (fld : FieldArr)
    (h : ∀ row ∈ fld, ∀ v ∈ row, v = none) : ∀ i, allCells i fld = [] := by
  induction fld with
  | nil => intro i; rfl
  | cons row rest ih =>
    intro i
    have hrow := rowCells_all_none i row (h row (List.mem_cons_self row rest)) 0
    have hrest : ∀ r ∈ rest, ∀ v ∈ r, v = none :=
      fun r hr => h r (List.mem_cons_of_mem _ hr)
    simp [allCells, hrow, ih hrest (i + 1)]

/-- Helper: `locate_max` reports the all-NaN error on an all-invalid field. -/
theorem locate_max_all_none (fld : FieldArr)
    (h : ∀ row ∈ fld, ∀ v ∈ row, v = none) :
    locate_max fld = Except.error () := by
  simp [locate_max, allCells_all_none fld h 0]

/-- Claim C6: on a field whose values are all invalid (NaN), running the
marker stage with `mark_field_max` enabled completes normally: the
field-maximum marker is skipped, exactly the all-NaN warning is emitted,
no maximum marker draw call is produced, and the remaining draw calls (the
release-site marker, when enabled) are still produced. -/
theorem all_nan_field_skips_max_marker (mrs : Bool) (site_lat site_lon : ℚ)
    (fld : FieldArr) (h : ∀ row ∈ fld, ∀ v ∈ row, v = none) :
    plot_add_markers mrs true site_lat site_lon fld =
      ((if mrs then [MarkerCall.siteMarker site_lat site_lon] else []),
       ["skip maximum marker (all-nan field)"]) := by
  simp [plot_add_markers, locate_max_all_none fld h]

/-- Claim C6 witness: a concrete 2x2 all-NaN field with both markers
requested. -/
theorem all_nan_field_skips_max_marker_witness :
    plot_add_markers true true 0 0 [[none, none], [none, none]] =
      ((if true then [MarkerCall.siteMarker 0 0] else []),
       ["skip maximum marker (all-nan field)"]) :=
  all_nan_field_skips_max_marker true 0 0 [[none, none], [none, none]] (by decide)

/-- Helper: zipping a list with a mapped copy of itself pairs each element
with its image. -/
theorem zip_self_map {α β : Type} (l : List α) (g : α → β) :
    l.zip (l.map g) = l.map (fun a => (a, g a)) := by
  induction l with
  | nil => rfl
  | cons a rest ih => simp [ih]

/-- Helper: `text` succeeds and records the anchored, offset call whenever
the location resolves and no keyword overrides the derived alignments and
the derived vertical alignment is not `top_baseline`. -/
theorem text_ok (B : ℚ × ℚ) (loc s : String) (dx? dy? : Option ℚ) (kw : Kw)
    (ly lx : String) (hp : prepare_loc loc = Except.ok (ly, lx))
    (hva : get_va ly ≠ "top_baseline")
    (h1 : kw.ha = none) (h2 : kw.va = none)
    (h3 : kw.horizontalalignment = none) (h4 : kw.verticalalignment = none) :
    text B loc s dx? dy? kw =
      Except.ok ⟨get_x0 lx B.1 + (dx?.getD 0) * B.1,
        get_y0 ly B.2 + (dy?.getD 0) * B.2, s, get_ha lx, get_va ly, kw.color⟩ := by
  simp [text, hp, h1, h2, h3, h4, hva, Bind.bind, Except.bind]

/-- Helper: closed form of the per-line loop of `text_blocks` on a block of
(line, color) pairs, when every `text` call succeeds: counting lines from
`n`, line `k` is placed at vertical offset `dy0 + k * dy_line`. -/
theorem emitLines_ok (B : ℚ × ℚ) (loc : String) (kw : Kw) (dyl : ℚ)
    (ly lx : String) (hp : prepare_loc loc = Except.ok (ly, lx))
    (hva : get_va ly ≠ "top_baseline")
    (h1 : kw.ha = none) (h2 : kw.va = none)
    (h3 : kw.horizontalalignment = none) (h4 : kw.verticalalignment = none) :
    ∀ (pairs : List (String × String)) (n : ℕ) (dy0 : ℚ),
      emitLines B loc kw dyl pairs (dy0 + n * dyl) =
        Except.ok ((List.enumFrom n pairs).map (fun kc =>
          ⟨get_x0 lx B.1 + (kw.dx.getD 0) * B.1,
           get_y0 ly B.2 + (dy0 + kc.1 * dyl) * B.2,
           kc.2.1, get_ha lx, get_va ly, some kc.2.2⟩),
         dy0 + (n + pairs.length) * dyl) := by
  intro pairs
  induction pairs with
  | nil => intro n dy0; simp [emitLines]
  | cons sc rest ih =>
    intro n dy0
    obtain ⟨s, c⟩ := sc
    have ht := text_ok B loc s kw.dx (some (dy0 + n * dyl))
      { kw with color := some c } ly lx hp hva h1 h2 h3 h4
    have harg : dy0 + n * dyl + dyl = dy0 + (n + 1 : ℕ) * dyl := by
      push_cast; ring
    simp only [emitLines, ht, Bind.bind, Except.bind, Option.getD_some, harg,
      ih (n + 1) dy0, List.enumFrom_cons, List.map_cons, List.length_cons]
    refine congrArg Except.ok (Prod.ext_iff.mpr ⟨rfl, ?_⟩)
    push_cast
    ring

/-- Helper: closed form of `text_blocks` on a single block without explicit
colors and without alignment overrides: line `k` of the block is placed at
the `loc` anchor with horizontal offset `dx` and vertical offset
`dy0 + k * dy_line`, in the default color. -/
theorem text_blocks_single_ok (B : ℚ × ℚ) (loc : String) (lines : List String)
    (dy0 dyl dyb : ℚ) (dxv : Option ℚ) (colOpt cOpt : Option String)
    (ly lx : String) (hp : prepare_loc loc = Except.ok (ly, lx))
    (hva : get_va ly ≠ "top_baseline") :
    text_blocks B loc [lines] (some dy0) (some dyl) (some dyb) false none
      ⟨dxv, none, none, none, none, colOpt, cOpt, none⟩ =
      Except.ok (lines.enum.map (fun ks =>
        ⟨get_x0 lx B.1 + (dxv.getD 0) * B.1,
         get_y0 ly B.2 + (dy0 + ks.1 * dyl) * B.2,
         ks.2, get_ha lx, get_va ly,
         some (colOpt.getD (cOpt.getD "black"))⟩)) := by
  have he := emitLines_ok B loc ⟨dxv, none, none, none, none, none, none, none⟩
    dyl ly lx hp hva rfl rfl rfl rfl
    (lines.map (fun s => (s, colOpt.getD (cOpt.getD "black")))) 0 dy0
  simp only [Nat.cast_zero, zero_mul, add_zero, Nat.zero_add] at he
  simp only [text_blocks, Option.getD_some, Bind.bind, Except.bind,
    List.map_cons, List.map_nil, Bool.false_eq_true, if_false,
    List.zip_cons_cons, List.zip_nil_right, zip_self_map, emitBlocks, he,
    List.append_nil]
  simp only [List.enum, List.enumFrom_map, List.map_map]
  rfl

/-- Claim C9: for a block of lines each containing a tab, `text_blocks_hfill`
splits every line at its first tab and draws, for line `k`: the left part
left-aligned from the box's bottom-left anchor (`get_x0 "l"`, baseline) at
horizontal offset `dx`, and the right part right-aligned from the
bottom-right anchor (`get_x0 "r"`) at the mirrored offset `-dx`, both at
the same vertical offset `dy0 + k * dy_line`. -/
theorem hfill_splits_left_right (B : ℚ × ℚ) (loc_y : String)
    (lines : List String) (parsed : List (String × String))
    (dxv dy0 dyl dyb : ℚ) (colOpt cOpt : Option String)
    (hparse : lines.mapM splitTab1 = Except.ok parsed) :
    text_blocks_hfill B loc_y [lines] (some dy0) (some dyl) (some dyb) false none
      ⟨some dxv, none, none, none, none, colOpt, cOpt, none⟩ =
      Except.ok
        (parsed.enum.map (fun kp =>
          ⟨get_x0 "l" B.1 + dxv * B.1,
           get_y0 "b" B.2 + (dy0 + kp.1 * dyl) * B.2,
           kp.2.1, "left", "baseline",
           some (colOpt.getD (cOpt.getD "black"))⟩) ++
         parsed.enum.map (fun kp =>
          ⟨get_x0 "r" B.1 + (-dxv) * B.1,
           get_y0 "b" B.2 + (dy0 + kp.1 * dyl) * B.2,
           kp.2.2, "right", "baseline",
           some (colOpt.getD (cOpt.getD "black"))⟩)) := by
  have hl := text_blocks_single_ok B "bl" (parsed.map Prod.fst) dy0 dyl dyb
    (some dxv) colOpt cOpt "b" "l" (by decide) (by decide)
  have hr := text_blocks_single_ok B "br" (parsed.map Prod.snd) dy0 dyl dyb
    (some (-dxv)) colOpt cOpt "b" "r" (by decide) (by decide)
  simp only [List.enum, List.enumFrom_map, List.map_map, Option.getD_some]
    at hl hr ⊢
  simp only [text_blocks_hfill, List.mapM_cons, List.mapM_nil, hparse,
    Bind.bind, Except.bind, pure, Except.pure, List.map_cons, List.map_nil,
    Option.map_some', hl, hr]
  rfl

/-- Claim C9 witness: the example line `Height:<tab>100 m AGL` produces a
left-aligned `Height:` from the bottom-left anchor and a right-aligned
`100 m AGL` from the bottom-right anchor with mirrored horizontal offsets
and one shared vertical offset. -/
theorem hfill_splits_left_right_witness :
    text_blocks_hfill (1, 1) "b" [["Height:\t100 m AGL"]] (some 2) (some (5/2))
      (some (5/2)) false none
      ⟨some 2, none, none, none, none, none, none, none⟩ =
      Except.ok
        (([("Height:", "100 m AGL")] : List (String × String)).enum.map (fun kp =>
          ⟨get_x0 "l" (1, (1 : ℚ)).1 + 2 * (1, (1 : ℚ)).1,
           get_y0 "b" (1, (1 : ℚ)).2 + (2 + kp.1 * (5/2)) * (1, (1 : ℚ)).2,
           kp.2.1, "left", "baseline",
           some ((none : Option String).getD ((none : Option String).getD "black"))⟩) ++
         ([("Height:", "100 m AGL")] : List (String × String)).enum.map (fun kp =>
          ⟨get_x0 "r" (1, (1 : ℚ)).1 + (-2) * (1, (1 : ℚ)).1,
           get_y0 "b" (1, (1 : ℚ)).2 + (2 + kp.1 * (5/2)) * (1, (1 : ℚ)).2,
           kp.2.2, "right", "baseline",
           some ((none : Option String).getD ((none : Option String).getD "black"))⟩)) :=
  hfill_splits_left_right (1, 1) "b" ["Height:\t100 m AGL"]
    [("Height:", "100 m AGL")] 2 2 (5/2) (5/2) none none (by decide)
